import Mathlib

/-!
Shallow embedding of the PTL (Periodic Task Layer) core of this repository:
the trace ring (ptl_trace.c), the task registry and wrapper (ptl_wrapper.c),
and the supervisor state machine (ptl_scheduler.c).  Ticks and counters are
modelled as `Nat` (the C code uses `TickType_t`/`uint32_t`; none of the
properties below involves counter wrap-around).  Kernel side effects
(task creation, notification, the fatal spin-halt) are modelled as explicit
fields of the step results.
-/

namespace PTL

/-- Trace event types, from `ptl_events.h` (`PTL_EventType_t`). -/
inductive EventType where
  | release
  | start
  | complete
  | deadlineMiss
  | overrunSkip
  | overrunKill
  | overrunCatchup
  | switchIn
  | switchOut
  | idleStart
  | idleEnd
deriving DecidableEq, Repr

/-- A single trace record, from `ptl_trace.h` (`PTL_TraceRecord_t`).
The C `pcTaskName` pointer is modelled as a `String` (the NULL pointer as `""`). -/
structure TraceRecord where
  pcTaskName : String
  eEvent : EventType
  xTimestamp : Nat
deriving DecidableEq, Repr

/-- `PTL_TRACE_BUFFER_SIZE` from `ptl_trace.h`. -/
def PTL_TRACE_BUFFER_SIZE : Nat := 1024

/-- The zero-initialised record a C static array slot holds before any write. -/
def zeroRecord : TraceRecord := ⟨"", EventType.release, 0⟩

/-- The mutable state of the trace module (`ptl_trace.c` statics):
`xTraceBuffer`, `ulWriteIndex`, `xBufferWrapped`, `xIdleTimeTotal`,
`xLastIdleEntry`.  Only indices `< PTL_TRACE_BUFFER_SIZE` of `xTraceBuffer`
are ever read or written. -/
structure TraceState where
  xTraceBuffer : Nat → TraceRecord
  ulWriteIndex : Nat
  xBufferWrapped : Bool
  xIdleTimeTotal : Nat
  xLastIdleEntry : Nat

/-- The state of the statics at program start (static zero initialisation). -/
def initialTraceState : TraceState :=
  ⟨fun _ => zeroRecord, 0, false, 0, 0⟩

/-- `PTL_TraceInit`: resets write index, wrapped flag and idle counters.
The buffer contents themselves are not touched by the C function. -/
def PTL_TraceInit (s : TraceState) : TraceState :=
  { s with ulWriteIndex := 0, xBufferWrapped := false,
           xIdleTimeTotal := 0, xLastIdleEntry := 0 }

/-- `PTL_LogEvent`: store the record at `ulWriteIndex`, advance the index,
and set the wrapped flag when the index reaches the capacity.  The critical
section of the C code is the atomicity of this step. -/
def PTL_LogEvent (s : TraceState) (pcTaskName : String) (eType : EventType)
    (xTime : Nat) : TraceState :=
  let buf : Nat → TraceRecord := fun j =>
    if j = s.ulWriteIndex then ⟨pcTaskName, eType, xTime⟩ else s.xTraceBuffer j
  let wi := s.ulWriteIndex + 1
  if PTL_TRACE_BUFFER_SIZE ≤ wi then
    { s with xTraceBuffer := buf, ulWriteIndex := 0, xBufferWrapped := true }
  else
    { s with xTraceBuffer := buf, ulWriteIndex := wi }

/-- The `count` of the read snapshot taken by `PTL_PrintTrace` /
`PTL_GetTraceStatistics` under a critical section. -/
def snapshotCount (s : TraceState) : Nat :=
  if s.xBufferWrapped then PTL_TRACE_BUFFER_SIZE else s.ulWriteIndex

/-- The `start` index of the read snapshot. -/
def snapshotStart (s : TraceState) : Nat :=
  if s.xBufferWrapped then s.ulWriteIndex else 0

/-- The records of the readable range `[start, start+count) mod C`,
in reading order. -/
def readableRange (s : TraceState) : List TraceRecord :=
  (List.range (snapshotCount s)).map fun i =>
    s.xTraceBuffer ((snapshotStart s + i) % PTL_TRACE_BUFFER_SIZE)

/-- A sequence of `PTL_LogEvent` calls, one per record. -/
def applyWrites (s : TraceState) (ws : List TraceRecord) : TraceState :=
  ws.foldl (fun acc r => PTL_LogEvent acc r.pcTaskName r.eEvent r.xTimestamp) s

/-- `PTL_TraceStats_t` from `ptl_trace.h`.  The C `float fCPUUtilization` is
modelled with exact rational arithmetic. -/
structure TraceStats where
  ulTotalReleases : Nat
  ulTotalCompletions : Nat
  ulDeadlineMisses : Nat
  ulOverrunCount : Nat
  ulIdleTimeMs : Nat
  ulTotalTimeMs : Nat
  fCPUUtilization : ℚ
deriving DecidableEq, Repr

/-- One iteration of the counting loop of `PTL_GetTraceStatistics`
(the `switch` on the record's event). -/
def statsCountEvent (st : TraceStats) (r : TraceRecord) : TraceStats :=
  match r.eEvent with
  | EventType.release => { st with ulTotalReleases := st.ulTotalReleases + 1 }
  | EventType.complete => { st with ulTotalCompletions := st.ulTotalCompletions + 1 }
  | EventType.deadlineMiss => { st with ulDeadlineMisses := st.ulDeadlineMisses + 1 }
  | EventType.overrunSkip => { st with ulOverrunCount := st.ulOverrunCount + 1 }
  | EventType.overrunKill => { st with ulOverrunCount := st.ulOverrunCount + 1 }
  | EventType.overrunCatchup => { st with ulOverrunCount := st.ulOverrunCount + 1 }
  | _ => st

/-- `PTL_GetTraceStatistics`: zero the output, take the snapshot, record the
last timestamp and the idle total, walk the readable range counting events
(the C loop reads `xTraceBuffer[(start + i) % C]` for `i < count`, which is
record `i` of `readableRange`), then compute the utilisation.
`ulActiveTime = ulTotalTimeMs - ulIdleTimeMs` is the C `uint32_t`
subtraction, which agrees with `Nat` subtraction whenever the idle total
does not exceed the total time. -/
def PTL_GetTraceStatistics (s : TraceState) : TraceStats :=
  let ulCount := snapshotCount s
  let ulStartIndex := snapshotStart s
  let ulTotalTimeMs :=
    if 0 < ulCount then
      (s.xTraceBuffer ((ulStartIndex + ulCount - 1) % PTL_TRACE_BUFFER_SIZE)).xTimestamp
    else 0
  let base : TraceStats := ⟨0, 0, 0, 0, s.xIdleTimeTotal, ulTotalTimeMs, 0⟩
  let counted := (readableRange s).foldl statsCountEvent base
  if 0 < counted.ulTotalTimeMs then
    let ulActiveTime := counted.ulTotalTimeMs - counted.ulIdleTimeMs
    { counted with
      fCPUUtilization := (ulActiveTime : ℚ) / (counted.ulTotalTimeMs : ℚ) }
  else
    { counted with fCPUUtilization := 0 }

/-- The timestamp of the most recently written record still in the ring
(0 for an empty ring): the last record of the readable range. -/
def lastWrittenTimestamp (s : TraceState) : Nat :=
  (((readableRange s).getLast?).map TraceRecord.xTimestamp).getD 0

/-- `PTL_OverrunPolicy_t` from `ptl.h`. -/
inductive OverrunPolicy where
  | useGlobal
  | skip
  | kill
  | catchUp
deriving DecidableEq, Repr

/-- `PTL_TaskConfig_t` from `ptl.h`.  The `pvEntryFunction` function pointer
is modelled as `Option Nat` (an opaque identifier; `none` is the NULL
pointer), and the opaque `pvParameters` pointer as a `Nat`. -/
structure TaskConfig where
  pcName : String
  xPeriod : Nat
  xDeadline : Nat
  uxPriority : Nat
  usStackDepth : Nat
  pvEntryFunction : Option Nat
  pvParameters : Nat
  eOverrunPolicy : OverrunPolicy
deriving DecidableEq, Repr

/-- `PTL_TaskObj_t` from `ptl.h`.  The kernel `TaskHandle_t` is modelled as
`Option Nat` (`none` is the NULL handle). -/
structure TaskObj where
  xConfig : TaskConfig
  xTaskHandle : Option Nat
  xNextReleaseTime : Nat
  xCurrentReleaseTime : Nat
  xIsActive : Bool
  xDeadlineMissed : Bool
  ulJobsCompleted : Nat
  ulDeadlineMisses : Nat
  ulOverrunSkips : Nat
  ulOverrunKills : Nat
  ulOverrunCatchUps : Nat
deriving DecidableEq, Repr

/-- `PTL_GetEffectivePolicy` from `ptl_wrapper.c` (non-NULL task case):
the per-task policy when it is not `USE_GLOBAL`, otherwise the global one. -/
def PTL_GetEffectivePolicy (eGlobalPolicy : OverrunPolicy) (t : TaskObj) :
    OverrunPolicy :=
  if t.xConfig.eOverrunPolicy ≠ OverrunPolicy.useGlobal then
    t.xConfig.eOverrunPolicy
  else
    eGlobalPolicy

/-- The two global-configuration statics the supervisor and the wrapper can
see at run time (`eGlobalPolicy` and `xTracingEnabled` in `ptl_wrapper.c`). -/
structure GlobalRunState where
  eGlobalPolicy : OverrunPolicy
  xTracingEnabled : Bool
deriving DecidableEq, Repr

/-- Result of `prvApplyPolicy_Kill` from `ptl_scheduler.c`.  `fatalHalt`
models the fatal-message-then-`for(;;)` branch taken when `xTaskCreate`
fails during the resurrection. -/
structure KillResult where
  task : TaskObj
  fatalHalt : Bool
deriving DecidableEq, Repr

/-- `prvApplyPolicy_Kill`: delete the overrun task's kernel task, reset
`xIsActive` and `xDeadlineMissed`, and recreate the task with the same
configuration.  `xKillCreateOk` is whether the kernel `xTaskCreate`
succeeds; `xFreshHandle` is the handle of the recreated task. -/
def prvApplyPolicy_Kill (xKillCreateOk : Bool) (xFreshHandle : Nat)
    (t : TaskObj) : KillResult :=
  let t1 := { t with xTaskHandle := none, xIsActive := false,
                     xDeadlineMissed := false }
  if xKillCreateOk then
    ⟨{ t1 with xTaskHandle := some xFreshHandle }, false⟩
  else
    ⟨t1, true⟩

/-- Result of the supervisor's handling of one task in one iteration:
the task's new state, the records appended to the trace ring in order,
whether the wrapper was notified (`xTaskNotifyGive`), whether the wrapper
task was destroyed and recreated, and whether the system entered the
fatal spin-halt. -/
structure StepResult where
  task : TaskObj
  events : List TraceRecord
  notified : Bool
  killRecreated : Bool
  fatalHalt : Bool
deriving DecidableEq, Repr

/-- Phase A of `prvPTL_SupervisorTask` (deadline surveillance,
`ptl_scheduler.c` lines 127-141): if the absolute deadline has passed, the
job is still active, and the miss is not yet latched, count and latch the
miss and log `DEADLINE_MISS` at `xNow`. -/
def prvSupervisorPhaseA (xNow : Nat) (t : TaskObj) : TaskObj × List TraceRecord :=
  let xDeadlineAbs := t.xCurrentReleaseTime + t.xConfig.xDeadline
  if xDeadlineAbs ≤ xNow ∧ t.xIsActive = true ∧ t.xDeadlineMissed = false then
    ({ t with ulDeadlineMisses := t.ulDeadlineMisses + 1, xDeadlineMissed := true },
      [⟨t.xConfig.pcName, EventType.deadlineMiss, xNow⟩])
  else
    (t, [])

/-- Phase B of `prvPTL_SupervisorTask` (release decision,
`ptl_scheduler.c` lines 143-203): when `xNow` has reached the next release
time, read `xIsActive` under the critical section, clear `xDeadlineMissed`,
then either release normally or apply the effective overrun policy. -/
def prvSupervisorPhaseB (g : GlobalRunState) (xKillCreateOk : Bool)
    (xFreshHandle : Nat) (xNow : Nat) (t : TaskObj) : StepResult :=
  if t.xNextReleaseTime ≤ xNow then
    let xTaskIsStillRunning := t.xIsActive
    let t := { t with xDeadlineMissed := false }
    if xTaskIsStillRunning then
      match PTL_GetEffectivePolicy g.eGlobalPolicy t with
      | OverrunPolicy.skip =>
          ⟨{ t with ulOverrunSkips := t.ulOverrunSkips + 1,
                    xNextReleaseTime := t.xNextReleaseTime + t.xConfig.xPeriod },
            [⟨t.xConfig.pcName, EventType.overrunSkip, xNow⟩],
            false, false, false⟩
      | OverrunPolicy.catchUp =>
          ⟨{ t with ulOverrunCatchUps := t.ulOverrunCatchUps + 1,
                    xCurrentReleaseTime := t.xNextReleaseTime,
                    xNextReleaseTime := t.xNextReleaseTime + t.xConfig.xPeriod },
            [⟨t.xConfig.pcName, EventType.overrunCatchup, xNow⟩,
             ⟨t.xConfig.pcName, EventType.release, xNow⟩],
            true, false, false⟩
      | OverrunPolicy.kill =>
          let t1 := { t with ulOverrunKills := t.ulOverrunKills + 1 }
          let evs := [⟨t.xConfig.pcName, EventType.overrunKill, xNow⟩,
                      (⟨t.xConfig.pcName, EventType.release, xNow⟩ : TraceRecord)]
          let kr := prvApplyPolicy_Kill xKillCreateOk xFreshHandle t1
          if kr.fatalHalt then
            ⟨kr.task, evs, false, false, true⟩
          else
            ⟨{ kr.task with xCurrentReleaseTime := t.xNextReleaseTime,
                            xNextReleaseTime := t.xNextReleaseTime + t.xConfig.xPeriod },
              evs, true, true, false⟩
      | OverrunPolicy.useGlobal =>
          ⟨t, [], false, false, false⟩
    else
      ⟨{ t with xCurrentReleaseTime := t.xNextReleaseTime,
                xNextReleaseTime := t.xNextReleaseTime + t.xConfig.xPeriod },
        [⟨t.xConfig.pcName, EventType.release, xNow⟩],
        true, false, false⟩
  else
    ⟨t, [], false, false, false⟩

/-- One full per-task pass of the supervisor loop body
(Phase A followed by Phase B). -/
def prvSupervisorCheckTask (g : GlobalRunState) (xKillCreateOk : Bool)
    (xFreshHandle : Nat) (xNow : Nat) (t : TaskObj) : StepResult :=
  let a := prvSupervisorPhaseA xNow t
  let b := prvSupervisorPhaseB g xKillCreateOk xFreshHandle xNow a.1
  { b with events := a.2 ++ b.events }

/-- `D_eff` as the wrapper computes it (`ptl_wrapper.c` lines 432-434):
the configured deadline if positive, else the period. -/
def xEffectiveDeadline (c : TaskConfig) : Nat :=
  if 0 < c.xDeadline then c.xDeadline else c.xPeriod

/-- Result of one wrapper-loop iteration: the task's new state and the
records the wrapper appended to the trace ring. -/
structure WrapperResult where
  task : TaskObj
  events : List TraceRecord
deriving DecidableEq, Repr

/-- One iteration of `PTL_GenericWrapper` (`ptl_wrapper.c` lines 436-478),
entered when the release notification is taken: mark active, stamp and
(if tracing) log START, run the job, stamp and (if tracing) log COMPLETE,
check the deadline against `xCurrentReleaseTime + D_eff` — latching the
miss, counting it and (if tracing) logging DEADLINE_MISS when the end
stamp is late — then mark inactive and count the completion. -/
def PTL_GenericWrapper_iter (xTracingEnabled : Bool)
    (xJobStartTime xJobEndTime : Nat) (t : TaskObj) : WrapperResult :=
  let t1 := { t with xIsActive := true }
  let ev1 : List TraceRecord :=
    if xTracingEnabled then [⟨t.xConfig.pcName, EventType.start, xJobStartTime⟩]
    else []
  let ev2 : List TraceRecord :=
    if xTracingEnabled then [⟨t.xConfig.pcName, EventType.complete, xJobEndTime⟩]
    else []
  let xAbsoluteDeadline := t1.xCurrentReleaseTime + xEffectiveDeadline t1.xConfig
  let t2 :=
    if xAbsoluteDeadline < xJobEndTime then
      { t1 with xDeadlineMissed := true,
                ulDeadlineMisses := t1.ulDeadlineMisses + 1 }
    else t1
  let ev3 : List TraceRecord :=
    if xAbsoluteDeadline < xJobEndTime ∧ xTracingEnabled then
      [⟨t.xConfig.pcName, EventType.deadlineMiss, xJobEndTime⟩]
    else []
  ⟨{ t2 with xIsActive := false, ulJobsCompleted := t2.ulJobsCompleted + 1 },
    ev1 ++ ev2 ++ ev3⟩

/-- `PTL_MAX_TASKS` from `ptl.h`. -/
def PTL_MAX_TASKS : Nat := 8

/-- `PTL_GlobalConfig_t` from `ptl.h`. -/
structure GlobalConfig where
  eOverrunPolicy : OverrunPolicy
  xTracingEnabled : Bool
  uxMaxTasks : Nat
deriving DecidableEq, Repr

/-- The statics of `ptl_wrapper.c` plus the trace statics and the set of
kernel tasks created so far (names of wrapper tasks handed to
`xTaskCreate`), which models the kernel-visible side effects of `PTL_Init`.
Only pool indices `< PTL_MAX_TASKS` are ever used. -/
structure PTLSystem where
  xTaskPool : Nat → TaskObj
  uxRegisteredTaskCount : Nat
  xIsInitialized : Bool
  eGlobalPolicy : OverrunPolicy
  xTracingEnabled : Bool
  uxMaxTasksAllowed : Nat
  trace : TraceState
  xKernelTasksCreated : List String

/-- The registry slot as the creation loop of `PTL_Init` fills it just
before the `xTaskCreate` call: configuration copied, `xDeadline`
normalised to the period when zero, handle NULL and all runtime state
zeroed. -/
def initTaskSlot (c : TaskConfig) : TaskObj :=
  let cfg := if c.xDeadline = 0 then { c with xDeadline := c.xPeriod } else c
  { xConfig := cfg, xTaskHandle := none, xNextReleaseTime := 0,
    xCurrentReleaseTime := 0, xIsActive := false, xDeadlineMissed := false,
    ulJobsCompleted := 0, ulDeadlineMisses := 0, ulOverrunSkips := 0,
    ulOverrunKills := 0, ulOverrunCatchUps := 0 }

/-- The wrapper-creation loop of `PTL_Init` (`ptl_wrapper.c` lines 536-579),
starting at pool index `i`.  A NULL entry function aborts with failure; a
slot is written and the wrapper task created otherwise.  `createOk i` is
whether the `i`-th kernel `xTaskCreate` succeeds; the handle stored on
success is modelled as `some i`. -/
def prvCreateTasksLoop (sys : PTLSystem) (createOk : Nat → Bool)
    (cfgs : List TaskConfig) (i : Nat) : Bool × PTLSystem :=
  match cfgs with
  | [] => (true, sys)
  | c :: rest =>
    if c.pvEntryFunction = none then
      (false, sys)
    else
      let slot := initTaskSlot c
      let sys1 := { sys with
        xTaskPool := fun j => if j = i then slot else sys.xTaskPool j }
      if createOk i then
        let sys2 := { sys1 with
          xTaskPool := fun j =>
            if j = i then { slot with xTaskHandle := some i } else sys1.xTaskPool j,
          xKernelTasksCreated := sys1.xKernelTasksCreated ++ [c.pcName] }
        prvCreateTasksLoop sys2 createOk rest (i + 1)
      else
        (false, sys1)

/-- `PTL_Init` (`ptl_wrapper.c` lines 494-586).  NULL pointers are the
`none` cases of the two `Option` arguments; the `uxTaskCount` argument is
the length of the configuration list.  Validation happens in source order:
NULL configs, task count zero or above `PTL_MAX_TASKS`, count above the
global `uxMaxTasks`, already initialised.  Past validation the global
settings are stored, the trace ring reset when tracing is enabled, and the
creation loop runs; on its failure `PTL_Init` returns `false` leaving the
partial effects in place. -/
def PTL_Init (sys : PTLSystem) (pxGlobalConfig : Option GlobalConfig)
    (pxTaskConfigs : Option (List TaskConfig)) (createOk : Nat → Bool) :
    Bool × PTLSystem :=
  match pxGlobalConfig, pxTaskConfigs with
  | none, _ => (false, sys)
  | some _, none => (false, sys)
  | some g, some cfgs =>
    if cfgs.length = 0 ∨ PTL_MAX_TASKS < cfgs.length then (false, sys)
    else if g.uxMaxTasks < cfgs.length then (false, sys)
    else if sys.xIsInitialized then (false, sys)
    else
      let sys1 := { sys with eGlobalPolicy := g.eOverrunPolicy,
                             xTracingEnabled := g.xTracingEnabled,
                             uxMaxTasksAllowed := g.uxMaxTasks }
      let sys2 :=
        if g.xTracingEnabled then { sys1 with trace := PTL_TraceInit sys1.trace }
        else sys1
      match prvCreateTasksLoop sys2 createOk cfgs 0 with
      | (false, sys3) => (false, sys3)
      | (true, sys3) =>
        (true, { sys3 with uxRegisteredTaskCount := cfgs.length,
                           xIsInitialized := true })

/-- The three caller-owned output cells of `PTL_GetTaskStats`. -/
structure TaskStatsOut where
  pulJobs : Nat
  pulMisses : Nat
  pulOverruns : Nat
deriving DecidableEq, Repr

/-- `PTL_GetTaskStats` (`ptl_wrapper.c` lines 656-678): return immediately
when the index is out of range, otherwise write each non-NULL output
pointer under the critical section.  The three `has...Ptr` flags model
whether the corresponding pointer argument is non-NULL; `out` holds the
cells' prior contents. -/
def PTL_GetTaskStats (sys : PTLSystem) (uxTaskIndex : Nat)
    (hasJobsPtr hasMissesPtr hasOverrunsPtr : Bool) (out : TaskStatsOut) :
    TaskStatsOut :=
  if sys.uxRegisteredTaskCount ≤ uxTaskIndex then out
  else
    let t := sys.xTaskPool uxTaskIndex
    { pulJobs := if hasJobsPtr then t.ulJobsCompleted else out.pulJobs,
      pulMisses := if hasMissesPtr then t.ulDeadlineMisses else out.pulMisses,
      pulOverruns :=
        if hasOverrunsPtr then
          t.ulOverrunSkips + t.ulOverrunKills + t.ulOverrunCatchUps
        else out.pulOverruns }

/-! ## Concrete fixtures used by counterexamples and witnesses -/

/-- A task configuration with period and deadline 100 ticks
(as in the repository's overrun tests). -/
def sampleConfig (pol : OverrunPolicy) : TaskConfig :=
  ⟨"Fast", 100, 100, 2, 512, some 1, 0, pol⟩

/-- A task whose job, released at tick 0, is still running at its next
release point (tick 100): the overrun situation of the policy tests.
`missed` is the current value of the `xDeadlineMissed` latch. -/
def sampleActiveTask (pol : OverrunPolicy) (missed : Bool) : TaskObj :=
  { xConfig := sampleConfig pol, xTaskHandle := some 1,
    xNextReleaseTime := 100, xCurrentReleaseTime := 0,
    xIsActive := true, xDeadlineMissed := missed,
    ulJobsCompleted := 0, ulDeadlineMisses := if missed then 1 else 0,
    ulOverrunSkips := 0, ulOverrunKills := 0, ulOverrunCatchUps := 0 }

/-- A registered task with nonzero overrun counters, for statistics reads. -/
def sampleStatsTask : TaskObj :=
  { xConfig := sampleConfig OverrunPolicy.skip, xTaskHandle := some 1,
    xNextReleaseTime := 300, xCurrentReleaseTime := 200,
    xIsActive := false, xDeadlineMissed := false,
    ulJobsCompleted := 7, ulDeadlineMisses := 4,
    ulOverrunSkips := 1, ulOverrunKills := 2, ulOverrunCatchUps := 3 }

/-- A system that already completed a successful `PTL_Init` with one task. -/
def sampleInitializedSystem : PTLSystem :=
  { xTaskPool := fun _ => sampleStatsTask,
    uxRegisteredTaskCount := 1, xIsInitialized := true,
    eGlobalPolicy := OverrunPolicy.skip, xTracingEnabled := false,
    uxMaxTasksAllowed := 4, trace := initialTraceState,
    xKernelTasksCreated := ["Fast"] }

/-! ## Claim C10: `PTL_GetTaskStats` bounds check and overrun sum -/

/-- Claim C10: for every index at or above the registered task count,
`PTL_GetTaskStats` returns without writing through any of its three output
pointers; for every valid index, the overruns output is the sum of the
task's `ulOverrunSkips`, `ulOverrunKills` and `ulOverrunCatchUps`. -/
theorem PTL_GetTaskStats_spec (sys : PTLSystem) (uxTaskIndex : Nat)
    (hasJobsPtr hasMissesPtr hasOverrunsPtr : Bool) (out : TaskStatsOut) :
    (sys.uxRegisteredTaskCount ≤ uxTaskIndex →
      PTL_GetTaskStats sys uxTaskIndex hasJobsPtr hasMissesPtr hasOverrunsPtr out
        = out)
  ∧ (uxTaskIndex < sys.uxRegisteredTaskCount → hasOverrunsPtr = true →
      (PTL_GetTaskStats sys uxTaskIndex hasJobsPtr hasMissesPtr hasOverrunsPtr
          out).pulOverruns
        = (sys.xTaskPool uxTaskIndex).ulOverrunSkips
            + (sys.xTaskPool uxTaskIndex).ulOverrunKills
            + (sys.xTaskPool uxTaskIndex).ulOverrunCatchUps) := by
  constructor
  · intro h
    simp [PTL_GetTaskStats, h]
  · intro h ho
    simp [PTL_GetTaskStats, Nat.not_le.mpr h, ho]

/-- Witness for C10 at a concrete system: index 5 is out of range for a
one-task registry and leaves the cells untouched; index 0 is valid and
yields the overrun sum. -/
theorem PTL_GetTaskStats_spec_witness :
    (sampleInitializedSystem.uxRegisteredTaskCount ≤ 5 ∧
      PTL_GetTaskStats sampleInitializedSystem 5 true true true ⟨9, 9, 9⟩
        = ⟨9, 9, 9⟩)
  ∧ ((0 : Nat) < sampleInitializedSystem.uxRegisteredTaskCount ∧
      (PTL_GetTaskStats sampleInitializedSystem 0 true true true
          ⟨9, 9, 9⟩).pulOverruns
        = (sampleInitializedSystem.xTaskPool 0).ulOverrunSkips
            + (sampleInitializedSystem.xTaskPool 0).ulOverrunKills
            + (sampleInitializedSystem.xTaskPool 0).ulOverrunCatchUps) :=
  ⟨⟨by decide,
    (PTL_GetTaskStats_spec sampleInitializedSystem 5 true true true ⟨9, 9, 9⟩).1
      (by decide)⟩,
   ⟨by decide,
    (PTL_GetTaskStats_spec sampleInitializedSystem 0 true true true ⟨9, 9, 9⟩).2
      (by decide) rfl⟩⟩

/-! ## Claim C9: tracing flag gates only the wrapper's events -/

/-- Claim C9: the records a supervisor iteration appends to the trace ring
do not depend on the tracing-enabled flag (the supervisor logs its RELEASE,
DEADLINE_MISS and OVERRUN events unconditionally), while the wrapper with
tracing disabled appends no records at all (its START, COMPLETE and
DEADLINE_MISS events are suppressed). -/
theorem supervisor_logs_ignore_tracing_flag :
    (∀ (p : OverrunPolicy) (b b' ko : Bool) (fh now : Nat) (t : TaskObj),
      prvSupervisorCheckTask ⟨p, b⟩ ko fh now t
        = prvSupervisorCheckTask ⟨p, b'⟩ ko fh now t)
  ∧ (∀ (ts te : Nat) (t : TaskObj),
      (PTL_GenericWrapper_iter false ts te t).events = []) := by
  constructor
  · intro p b b' ko fh now t
    rfl
  · intro ts te t
    simp [PTL_GenericWrapper_iter]

/-! ## Claim C1: the CATCH_UP branch of the Phase-B release check -/

/-- Claim C1 counterexample: under CATCH_UP with the previous job still
active, the supervisor does NOT force `xIsActive` to false — after the
step (which did take the CATCH_UP branch: the counter was incremented and
the wrapper notified) the flag is still true, contradicting the claimed
"forces `is_active = false` under a critical section". -/
theorem catchUp_does_not_clear_isActive :
    (prvSupervisorCheckTask ⟨OverrunPolicy.catchUp, true⟩ true 7 100
        (sampleActiveTask OverrunPolicy.catchUp true)).task.xIsActive = true
  ∧ (prvSupervisorCheckTask ⟨OverrunPolicy.catchUp, true⟩ true 7 100
        (sampleActiveTask OverrunPolicy.catchUp true)).task.ulOverrunCatchUps = 1
  ∧ (prvSupervisorCheckTask ⟨OverrunPolicy.catchUp, true⟩ true 7 100
        (sampleActiveTask OverrunPolicy.catchUp true)).notified = true :=
  ⟨rfl, rfl, rfl⟩

/-- Claim C1 (amended): when the Phase-B release check finds the previous
job still active and the effective policy is CATCH_UP, the supervisor
increments `ulOverrunCatchUps`, logs OVERRUN_CATCHUP then RELEASE at the
current tick, sets `xCurrentReleaseTime` to the old `xNextReleaseTime`,
advances `xNextReleaseTime` by exactly the period, and notifies the
wrapper — while leaving `xIsActive` unchanged (still true). -/
theorem catchUp_phaseB_spec (g : GlobalRunState) (xKillCreateOk : Bool)
    (xFreshHandle xNow : Nat) (t : TaskObj)
    (hRel : t.xNextReleaseTime ≤ xNow) (hAct : t.xIsActive = true)
    (hPol : PTL_GetEffectivePolicy g.eGlobalPolicy t = OverrunPolicy.catchUp) :
    (prvSupervisorPhaseB g xKillCreateOk xFreshHandle xNow t).task.ulOverrunCatchUps
        = t.ulOverrunCatchUps + 1
  ∧ (prvSupervisorPhaseB g xKillCreateOk xFreshHandle xNow t).events
        = [⟨t.xConfig.pcName, EventType.overrunCatchup, xNow⟩,
           ⟨t.xConfig.pcName, EventType.release, xNow⟩]
  ∧ (prvSupervisorPhaseB g xKillCreateOk xFreshHandle xNow t).task.xCurrentReleaseTime
        = t.xNextReleaseTime
  ∧ (prvSupervisorPhaseB g xKillCreateOk xFreshHandle xNow t).task.xNextReleaseTime
        = t.xNextReleaseTime + t.xConfig.xPeriod
  ∧ (prvSupervisorPhaseB g xKillCreateOk xFreshHandle xNow t).notified = true
  ∧ (prvSupervisorPhaseB g xKillCreateOk xFreshHandle xNow t).task.xIsActive
        = t.xIsActive := by
  obtain ⟨cfg, hd, nrt, crt, act, dm, jc, dms, os, okl, oc⟩ := t
  simp only at hAct
  subst hAct
  simp only [PTL_GetEffectivePolicy] at hPol
  simp only [prvSupervisorPhaseB, PTL_GetEffectivePolicy]
  rw [if_pos hRel, hPol]
  simp

/-- Witness for the amended C1 at a concrete overrunning CATCH_UP task. -/
theorem catchUp_phaseB_spec_witness :
    ((sampleActiveTask OverrunPolicy.catchUp false).xNextReleaseTime ≤ 100
      ∧ (sampleActiveTask OverrunPolicy.catchUp false).xIsActive = true
      ∧ PTL_GetEffectivePolicy OverrunPolicy.skip
          (sampleActiveTask OverrunPolicy.catchUp false) = OverrunPolicy.catchUp)
  ∧ (prvSupervisorPhaseB ⟨OverrunPolicy.skip, true⟩ true 7 100
        (sampleActiveTask OverrunPolicy.catchUp false)).task.ulOverrunCatchUps
      = (sampleActiveTask OverrunPolicy.catchUp false).ulOverrunCatchUps + 1 :=
  ⟨⟨by decide, by decide, by decide⟩,
    (catchUp_phaseB_spec ⟨OverrunPolicy.skip, true⟩ true 7 100
      (sampleActiveTask OverrunPolicy.catchUp false)
      (by decide) (by decide) (by decide)).1⟩

/-! ## Claim C6: the KILL branch of the Phase-B release check -/

/-- Claim C6: when the Phase-B release check finds the previous job still
active and the effective policy is KILL, the supervisor increments
`ulOverrunKills` and logs OVERRUN_KILL then RELEASE; when the kernel
recreation succeeds it destroys and recreates the wrapper with the
identical configuration, resets `xIsActive` and `xDeadlineMissed`, sets
`xCurrentReleaseTime` to the old `xNextReleaseTime`, advances
`xNextReleaseTime` by the period and notifies the new wrapper; when the
recreation fails it enters the fatal spin-halt (after the fatal message). -/
theorem kill_phaseB_spec (g : GlobalRunState) (xKillCreateOk : Bool)
    (xFreshHandle xNow : Nat) (t : TaskObj)
    (hRel : t.xNextReleaseTime ≤ xNow) (hAct : t.xIsActive = true)
    (hPol : PTL_GetEffectivePolicy g.eGlobalPolicy t = OverrunPolicy.kill) :
    (prvSupervisorPhaseB g xKillCreateOk xFreshHandle xNow t).task.ulOverrunKills
        = t.ulOverrunKills + 1
  ∧ (prvSupervisorPhaseB g xKillCreateOk xFreshHandle xNow t).events
        = [⟨t.xConfig.pcName, EventType.overrunKill, xNow⟩,
           ⟨t.xConfig.pcName, EventType.release, xNow⟩]
  ∧ (xKillCreateOk = true →
      (prvSupervisorPhaseB g xKillCreateOk xFreshHandle xNow t).killRecreated = true
      ∧ (prvSupervisorPhaseB g xKillCreateOk xFreshHandle xNow t).task.xConfig
          = t.xConfig
      ∧ (prvSupervisorPhaseB g xKillCreateOk xFreshHandle xNow t).task.xTaskHandle
          = some xFreshHandle
      ∧ (prvSupervisorPhaseB g xKillCreateOk xFreshHandle xNow t).task.xIsActive
          = false
      ∧ (prvSupervisorPhaseB g xKillCreateOk xFreshHandle xNow t).task.xDeadlineMissed
          = false
      ∧ (prvSupervisorPhaseB g xKillCreateOk xFreshHandle xNow t).task.xCurrentReleaseTime
          = t.xNextReleaseTime
      ∧ (prvSupervisorPhaseB g xKillCreateOk xFreshHandle xNow t).task.xNextReleaseTime
          = t.xNextReleaseTime + t.xConfig.xPeriod
      ∧ (prvSupervisorPhaseB g xKillCreateOk xFreshHandle xNow t).notified = true
      ∧ (prvSupervisorPhaseB g xKillCreateOk xFreshHandle xNow t).fatalHalt = false)
  ∧ (xKillCreateOk = false →
      (prvSupervisorPhaseB g xKillCreateOk xFreshHandle xNow t).fatalHalt = true
      ∧ (prvSupervisorPhaseB g xKillCreateOk xFreshHandle xNow t).notified = false) := by
  obtain ⟨cfg, hd, nrt, crt, act, dm, jc, dms, os, okl, oc⟩ := t
  simp only at hAct
  subst hAct
  simp only [PTL_GetEffectivePolicy] at hPol
  simp only [prvSupervisorPhaseB, PTL_GetEffectivePolicy]
  rw [if_pos hRel, hPol]
  cases xKillCreateOk <;> simp [prvApplyPolicy_Kill]

/-- Witness for C6 at a concrete overrunning KILL task, exercising the
successful-recreation branch through the theorem. -/
theorem kill_phaseB_spec_witness :
    ((sampleActiveTask OverrunPolicy.kill false).xNextReleaseTime ≤ 100
      ∧ (sampleActiveTask OverrunPolicy.kill false).xIsActive = true
      ∧ PTL_GetEffectivePolicy OverrunPolicy.skip
          (sampleActiveTask OverrunPolicy.kill false) = OverrunPolicy.kill)
  ∧ (prvSupervisorPhaseB ⟨OverrunPolicy.skip, true⟩ true 7 100
        (sampleActiveTask OverrunPolicy.kill false)).task.ulOverrunKills
      = (sampleActiveTask OverrunPolicy.kill false).ulOverrunKills + 1 :=
  ⟨⟨by decide, by decide, by decide⟩,
    (kill_phaseB_spec ⟨OverrunPolicy.skip, true⟩ true 7 100
      (sampleActiveTask OverrunPolicy.kill false)
      (by decide) (by decide) (by decide)).1⟩

/-! ## Claim C2: the `xDeadlineMissed` latch is cleared without a release -/

/-- Claim C2 divergence: at tick 100 a SKIP-policy task whose job (released
at tick 0) is still running and whose miss is already latched goes through
the Phase-B check, which clears `xDeadlineMissed` (true to false) even
though no new job is released — the job is still active, the wrapper is not
notified, and the only record logged is OVERRUN_SKIP, not RELEASE.  This
contradicts the claim that the latch is cleared only when a new job is
released. -/
theorem deadlineMissed_cleared_without_release :
    (prvSupervisorCheckTask ⟨OverrunPolicy.skip, true⟩ true 7 100
        (sampleActiveTask OverrunPolicy.skip true)).task.xDeadlineMissed = false
  ∧ (sampleActiveTask OverrunPolicy.skip true).xDeadlineMissed = true
  ∧ (prvSupervisorCheckTask ⟨OverrunPolicy.skip, true⟩ true 7 100
        (sampleActiveTask OverrunPolicy.skip true)).task.xIsActive = true
  ∧ (prvSupervisorCheckTask ⟨OverrunPolicy.skip, true⟩ true 7 100
        (sampleActiveTask OverrunPolicy.skip true)).notified = false
  ∧ (prvSupervisorCheckTask ⟨OverrunPolicy.skip, true⟩ true 7 100
        (sampleActiveTask OverrunPolicy.skip true)).events
      = [⟨"Fast", EventType.overrunSkip, 100⟩] :=
  ⟨rfl, rfl, rfl, rfl, rfl⟩

/-! ## Claim C3: a SKIPped job is re-counted as a second deadline miss -/

/-- The supervisor pass at tick 100 over a SKIP task whose job, released at
tick 0 with deadline 100, is still running (as in the repository's SKIP
test: period 100, job body 250 ticks). -/
def skipTick100 : StepResult :=
  prvSupervisorCheckTask ⟨OverrunPolicy.skip, true⟩ true 7 100
    (sampleActiveTask OverrunPolicy.skip false)

/-- The supervisor pass one tick later over the same still-running job. -/
def skipTick101 : StepResult :=
  prvSupervisorCheckTask ⟨OverrunPolicy.skip, true⟩ true 7 101 skipTick100.task

/-- Claim C3 divergence: at tick 100 Phase A counts the deadline miss and
latches the flag, and Phase B applies SKIP — but Phase B also clears the
latch, so at tick 101 Phase A of the SAME still-running job fires again:
the miss counter reaches 2 and a second DEADLINE_MISS record is logged.
This contradicts the claim that after a SKIP every subsequent Phase-A check
of the still-running job is suppressed by the latched flag. -/
theorem skip_counts_second_deadline_miss :
    skipTick100.task.ulDeadlineMisses = 1
  ∧ skipTick100.task.ulOverrunSkips = 1
  ∧ skipTick100.task.xDeadlineMissed = false
  ∧ skipTick100.task.xIsActive = true
  ∧ skipTick101.task.ulDeadlineMisses = 2
  ∧ skipTick101.events = [⟨"Fast", EventType.deadlineMiss, 101⟩]
  ∧ skipTick101.task.xIsActive = true :=
  ⟨rfl, rfl, rfl, rfl, rfl, rfl, rfl⟩

/-! ## Claim C4: the wrapper's completion-time deadline check -/

/-- Claim C4 counterexample: a job whose miss was already latched by the
supervisor in Phase A (`xDeadlineMissed = true`, `ulDeadlineMisses = 1`)
completes late at tick 150; the wrapper increments the miss counter to 2
and emits a second DEADLINE_MISS record, because the code has no
"not already latched" guard — contradicting the claim that a miss latched
by the supervisor is not counted a second time by the wrapper. -/
theorem wrapper_recounts_latched_miss :
    (PTL_GenericWrapper_iter true 5 150
        (sampleActiveTask OverrunPolicy.skip true)).task.ulDeadlineMisses = 2
  ∧ (sampleActiveTask OverrunPolicy.skip true).ulDeadlineMisses = 1
  ∧ (sampleActiveTask OverrunPolicy.skip true).xDeadlineMissed = true
  ∧ (PTL_GenericWrapper_iter true 5 150
        (sampleActiveTask OverrunPolicy.skip true)).events
      = [⟨"Fast", EventType.start, 5⟩, ⟨"Fast", EventType.complete, 150⟩,
         ⟨"Fast", EventType.deadlineMiss, 150⟩] :=
  ⟨rfl, rfl, rfl, rfl⟩

/-- Claim C4 (amended): for every completed job the wrapper computes
`D_eff = (D > 0 ? D : T)` and `absolute_deadline = current_release + D_eff`,
and it latches `xDeadlineMissed`, increments the miss counter and emits a
DEADLINE_MISS record at `t_end` if and only if
`t_end > absolute_deadline` — regardless of whether the miss is already
latched, so a miss latched by the supervisor in Phase A is counted a second
time by the wrapper. -/
theorem wrapper_deadline_check_spec (ts te : Nat) (t : TaskObj) :
    ((PTL_GenericWrapper_iter true ts te t).task.ulDeadlineMisses =
        if t.xCurrentReleaseTime + xEffectiveDeadline t.xConfig < te
        then t.ulDeadlineMisses + 1 else t.ulDeadlineMisses)
  ∧ ((PTL_GenericWrapper_iter true ts te t).task.xDeadlineMissed =
        if t.xCurrentReleaseTime + xEffectiveDeadline t.xConfig < te
        then true else t.xDeadlineMissed)
  ∧ ((⟨t.xConfig.pcName, EventType.deadlineMiss, te⟩ : TraceRecord) ∈
        (PTL_GenericWrapper_iter true ts te t).events ↔
      t.xCurrentReleaseTime + xEffectiveDeadline t.xConfig < te)
  ∧ xEffectiveDeadline t.xConfig
      = (if 0 < t.xConfig.xDeadline then t.xConfig.xDeadline
         else t.xConfig.xPeriod) := by
  refine ⟨?_, ?_, ?_, rfl⟩ <;>
    (by_cases h : t.xCurrentReleaseTime + xEffectiveDeadline t.xConfig < te <;>
      simp [PTL_GenericWrapper_iter, h])

/-! ## Claim C5: failure behaviour of `PTL_Init` -/

/-- An uninitialised system whose trace ring holds five stale records, so
state changes made by a failing `PTL_Init` call are observable. -/
def freshSystem : PTLSystem :=
  { xTaskPool := fun _ => initTaskSlot (sampleConfig OverrunPolicy.useGlobal),
    uxRegisteredTaskCount := 0, xIsInitialized := false,
    eGlobalPolicy := OverrunPolicy.skip, xTracingEnabled := false,
    uxMaxTasksAllowed := 0,
    trace := { initialTraceState with ulWriteIndex := 5 },
    xKernelTasksCreated := [] }

/-- A valid task configuration for `PTL_Init` calls. -/
def goodTaskConfig : TaskConfig :=
  ⟨"TaskA", 50, 50, 1, 256, some 2, 0, OverrunPolicy.useGlobal⟩

/-- A task configuration with a NULL entry function. -/
def nullEntryTaskConfig : TaskConfig :=
  ⟨"TaskB", 50, 50, 1, 256, none, 0, OverrunPolicy.useGlobal⟩

/-- The `PTL_Init` call that trips over the NULL entry function of the
second task, after the first wrapper has already been created. -/
def nullEntryInitCall : Bool × PTLSystem :=
  PTL_Init freshSystem (some ⟨OverrunPolicy.catchUp, true, 4⟩)
    (some [goodTaskConfig, nullEntryTaskConfig]) (fun _ => true)

/-- Claim C5 counterexample: a call violating a validity condition (the
second task has a NULL entry function) returns failure but does NOT leave
the system in its pre-call state: the tracing flag has been stored (false
to true), the trace ring has been reset (write index 5 to 0), and the
first task's wrapper has been created. -/
theorem init_failure_leaves_partial_state :
    nullEntryInitCall.1 = false
  ∧ nullEntryInitCall.2.xTracingEnabled = true
  ∧ freshSystem.xTracingEnabled = false
  ∧ nullEntryInitCall.2.trace.ulWriteIndex = 0
  ∧ freshSystem.trace.ulWriteIndex = 5
  ∧ nullEntryInitCall.2.xKernelTasksCreated = ["TaskA"]
  ∧ freshSystem.xKernelTasksCreated = [] :=
  ⟨rfl, rfl, rfl, rfl, rfl, rfl, rfl⟩

/-- Claim C5 (amended): `PTL_Init` returns failure on every violated
validity condition, and the violations detected by the up-front validation
— NULL global configuration, NULL task array, task count zero or above
`PTL_MAX_TASKS`, count above the global `uxMaxTasks`, and the system
already initialised (in particular every second call after a successful
one) — leave the system exactly in its pre-call state.  (A NULL entry
function is detected only inside the creation loop and leaves the stored
global settings, the reset trace ring and the earlier wrappers in place.) -/
theorem PTL_Init_early_reject (sys : PTLSystem) (g : GlobalConfig)
    (cfgs : List TaskConfig) (createOk : Nat → Bool) :
    PTL_Init sys none (some cfgs) createOk = (false, sys)
  ∧ PTL_Init sys (some g) none createOk = (false, sys)
  ∧ (cfgs.length = 0 ∨ PTL_MAX_TASKS < cfgs.length →
      PTL_Init sys (some g) (some cfgs) createOk = (false, sys))
  ∧ (g.uxMaxTasks < cfgs.length →
      PTL_Init sys (some g) (some cfgs) createOk = (false, sys))
  ∧ (sys.xIsInitialized = true →
      PTL_Init sys (some g) (some cfgs) createOk = (false, sys)) := by
  refine ⟨rfl, rfl, ?_, ?_, ?_⟩
  · intro h
    simp only [PTL_Init]
    rw [if_pos h]
  · intro h
    simp only [PTL_Init]
    by_cases h1 : cfgs.length = 0 ∨ PTL_MAX_TASKS < cfgs.length
    · rw [if_pos h1]
    · rw [if_neg h1, if_pos h]
  · intro h
    simp only [PTL_Init]
    by_cases h1 : cfgs.length = 0 ∨ PTL_MAX_TASKS < cfgs.length
    · rw [if_pos h1]
    · rw [if_neg h1]
      by_cases h2 : g.uxMaxTasks < cfgs.length
      · rw [if_pos h2]
      · rw [if_neg h2, if_pos h]

/-- Witness for the amended C5: a second `PTL_Init` on an
already-initialised system fails and leaves the state untouched. -/
theorem PTL_Init_early_reject_witness :
    sampleInitializedSystem.xIsInitialized = true
  ∧ PTL_Init sampleInitializedSystem (some ⟨OverrunPolicy.skip, false, 4⟩)
      (some [goodTaskConfig]) (fun _ => true) = (false, sampleInitializedSystem) :=
  ⟨rfl,
    (PTL_Init_early_reject sampleInitializedSystem ⟨OverrunPolicy.skip, false, 4⟩
      [goodTaskConfig] (fun _ => true)).2.2.2.2 rfl⟩

/-! ## Claim C7: after at least C writes, exactly the last C records
are readable -/

lemma getD_append_self {α : Type} (ws : List α) (r d : α) :
    (ws ++ [r]).getD ws.length d = r := by
  induction ws with
  | nil => rfl
  | cons a tl ih => simp only [List.cons_append, List.length_cons, List.getD_cons_succ]; exact ih

lemma getD_append_left {α : Type} (ws : List α) (r d : α) (k : Nat)
    (h : k < ws.length) : (ws ++ [r]).getD k d = ws.getD k d := by
  induction ws generalizing k with
  | nil => simp at h
  | cons a tl ih =>
    cases k with
    | zero => rfl
    | succ n => simpa using ih n (by simpa using h)

lemma applyWrites_append (s : TraceState) (ws : List TraceRecord)
    (r : TraceRecord) :
    applyWrites s (ws ++ [r]) =
      PTL_LogEvent (applyWrites s ws) r.pcTaskName r.eEvent r.xTimestamp := by
  simp [applyWrites, List.foldl_append]

/-- The ring invariant after any sequence of writes from the reset state:
the write index is the write count modulo the capacity, the wrapped flag
records whether the capacity was reached, and the buffer slot `k mod C`
holds the `k`-th write for each of the last `min(count, C)` writes. -/
lemma applyWrites_invariant (ws : List TraceRecord) :
    (applyWrites initialTraceState ws).ulWriteIndex
        = ws.length % PTL_TRACE_BUFFER_SIZE
  ∧ ((applyWrites initialTraceState ws).xBufferWrapped = true
        ↔ PTL_TRACE_BUFFER_SIZE ≤ ws.length)
  ∧ ∀ k, k < ws.length → ws.length ≤ k + PTL_TRACE_BUFFER_SIZE →
      (applyWrites initialTraceState ws).xTraceBuffer
          (k % PTL_TRACE_BUFFER_SIZE)
        = ws.getD k zeroRecord := by
  induction ws using List.reverseRecOn with
  | nil =>
    refine ⟨rfl, by simp [applyWrites, initialTraceState, PTL_TRACE_BUFFER_SIZE], ?_⟩
    intro k hk
    simp at hk
  | append_singleton ws r ih =>
    obtain ⟨ih1, ih2, ih3⟩ := ih
    rw [applyWrites_append]
    simp only [PTL_TRACE_BUFFER_SIZE] at ih1 ih2 ih3 ⊢
    simp only [PTL_LogEvent, PTL_TRACE_BUFFER_SIZE, ih1, List.length_append,
      List.length_cons, List.length_nil]
    by_cases hc : (1024 : Nat) ≤ ws.length % 1024 + 1
    · -- the write reaches the end of the buffer: index resets, flag set
      rw [if_pos hc]
      refine ⟨by dsimp only; omega, ?_, ?_⟩
      · constructor
        · intro _
          omega
        · intro _
          rfl
      · intro k hk1 hk2
        dsimp only
        rcases Nat.lt_or_ge k ws.length with hk | hk
        · have hne : ¬ k % 1024 = ws.length % 1024 := by omega
          rw [if_neg hne, ih3 k hk (by omega),
            getD_append_left ws r zeroRecord k hk]
        · have hk' : k = ws.length := by omega
          subst hk'
          rw [if_pos rfl, getD_append_self]
    · -- plain advance of the write index
      rw [if_neg hc]
      refine ⟨by dsimp only; omega, ?_, ?_⟩
      · rw [ih2]
        omega
      · intro k hk1 hk2
        dsimp only
        rcases Nat.lt_or_ge k ws.length with hk | hk
        · have hne : ¬ k % 1024 = ws.length % 1024 := by omega
          rw [if_neg hne, ih3 k hk (by omega),
            getD_append_left ws r zeroRecord k hk]
        · have hk' : k = ws.length := by omega
          subst hk'
          rw [if_pos rfl, getD_append_self]

/-- Claim C7: after any sequence of at least `PTL_TRACE_BUFFER_SIZE`
writes from the reset state, the snapshot reads exactly the capacity many
records, starting at the write index, and the readable range is exactly
the most recent capacity-many writes in write order — every older record
has been overwritten. -/
theorem trace_wrap_keeps_exactly_last_C (ws : List TraceRecord)
    (h : PTL_TRACE_BUFFER_SIZE ≤ ws.length) :
    snapshotCount (applyWrites initialTraceState ws) = PTL_TRACE_BUFFER_SIZE
  ∧ snapshotStart (applyWrites initialTraceState ws)
      = (applyWrites initialTraceState ws).ulWriteIndex
  ∧ readableRange (applyWrites initialTraceState ws)
      = ws.drop (ws.length - PTL_TRACE_BUFFER_SIZE) := by
  obtain ⟨h1, h2, h3⟩ := applyWrites_invariant ws
  have hw : (applyWrites initialTraceState ws).xBufferWrapped = true := h2.mpr h
  have hCpos : 0 < PTL_TRACE_BUFFER_SIZE := by simp [PTL_TRACE_BUFFER_SIZE]
  refine ⟨by simp [snapshotCount, hw], by simp [snapshotStart, hw], ?_⟩
  apply List.ext_getElem
  · simp [readableRange, snapshotCount, hw]
    omega
  · intro i hi1 hi2
    have hiC : i < PTL_TRACE_BUFFER_SIZE := by
      simpa [readableRange, snapshotCount, hw] using hi1
    have hmod : (ws.length - PTL_TRACE_BUFFER_SIZE + i) % PTL_TRACE_BUFFER_SIZE
        = (ws.length % PTL_TRACE_BUFFER_SIZE + i) % PTL_TRACE_BUFFER_SIZE := by
      simp only [PTL_TRACE_BUFFER_SIZE] at h hiC ⊢
      omega
    have hbuf := h3 (ws.length - PTL_TRACE_BUFFER_SIZE + i) (by omega) (by omega)
    rw [hmod] at hbuf
    have hklt : ws.length - PTL_TRACE_BUFFER_SIZE + i < ws.length := by omega
    simp only [readableRange, snapshotCount, snapshotStart, hw, if_pos,
      List.getElem_map, List.getElem_range, h1]
    rw [hbuf, List.getD_eq_getElem ws zeroRecord hklt, List.getElem_drop]

/-- Witness for C7: 1025 writes of one record satisfy the hypothesis. -/
theorem trace_wrap_keeps_exactly_last_C_witness :
    PTL_TRACE_BUFFER_SIZE
      ≤ (List.replicate 1025 (⟨"Fast", EventType.release, 3⟩ : TraceRecord)).length
  ∧ readableRange (applyWrites initialTraceState
        (List.replicate 1025 (⟨"Fast", EventType.release, 3⟩ : TraceRecord)))
      = (List.replicate 1025 (⟨"Fast", EventType.release, 3⟩ : TraceRecord)).drop
          ((List.replicate 1025 (⟨"Fast", EventType.release, 3⟩ : TraceRecord)).length
            - PTL_TRACE_BUFFER_SIZE) :=
  ⟨by simp only [List.length_replicate, PTL_TRACE_BUFFER_SIZE]; omega,
    (trace_wrap_keeps_exactly_last_C
      (List.replicate 1025 (⟨"Fast", EventType.release, 3⟩ : TraceRecord))
      (by simp only [List.length_replicate, PTL_TRACE_BUFFER_SIZE]; omega)).2.2⟩

/-! ## Claim C8: the statistics reducer -/

/-- The counting loop adds, to each counter of its accumulator, the number
of records of the corresponding kind in the walked list, and leaves the
idle, total-time and utilisation fields untouched. -/
lemma statsLoop_counts (l : List TraceRecord) (b : TraceStats) :
    (l.foldl statsCountEvent b).ulTotalReleases
        = b.ulTotalReleases
          + l.countP (fun r => decide (r.eEvent = EventType.release))
  ∧ (l.foldl statsCountEvent b).ulTotalCompletions
        = b.ulTotalCompletions
          + l.countP (fun r => decide (r.eEvent = EventType.complete))
  ∧ (l.foldl statsCountEvent b).ulDeadlineMisses
        = b.ulDeadlineMisses
          + l.countP (fun r => decide (r.eEvent = EventType.deadlineMiss))
  ∧ (l.foldl statsCountEvent b).ulOverrunCount
        = b.ulOverrunCount
          + l.countP (fun r => decide (r.eEvent = EventType.overrunSkip
              ∨ r.eEvent = EventType.overrunKill
              ∨ r.eEvent = EventType.overrunCatchup))
  ∧ (l.foldl statsCountEvent b).ulIdleTimeMs = b.ulIdleTimeMs
  ∧ (l.foldl statsCountEvent b).ulTotalTimeMs = b.ulTotalTimeMs
  ∧ (l.foldl statsCountEvent b).fCPUUtilization = b.fCPUUtilization := by
  induction l generalizing b with
  | nil => simp
  | cons r l ih =>
    obtain ⟨i1, i2, i3, i4, i5, i6, i7⟩ := ih (statsCountEvent b r)
    refine ⟨?_, ?_, ?_, ?_, ?_, ?_, ?_⟩
    · rw [List.foldl_cons, List.countP_cons, i1]
      cases hr : r.eEvent <;> simp [statsCountEvent, hr] <;> omega
    · rw [List.foldl_cons, List.countP_cons, i2]
      cases hr : r.eEvent <;> simp [statsCountEvent, hr] <;> omega
    · rw [List.foldl_cons, List.countP_cons, i3]
      cases hr : r.eEvent <;> simp [statsCountEvent, hr] <;> omega
    · rw [List.foldl_cons, List.countP_cons, i4]
      cases hr : r.eEvent <;> simp [statsCountEvent, hr] <;> omega
    · rw [List.foldl_cons, i5]
      cases hr : r.eEvent <;> simp [statsCountEvent, hr]
    · rw [List.foldl_cons, i6]
      cases hr : r.eEvent <;> simp [statsCountEvent, hr]
    · rw [List.foldl_cons, i7]
      cases hr : r.eEvent <;> simp [statsCountEvent, hr]

lemma getLast?_map_range {α : Type} (f : Nat → α) (n : Nat) :
    ((List.range n).map f).getLast? = if n = 0 then none else some (f (n - 1)) := by
  cases n with
  | zero => rfl
  | succ m =>
    rw [List.range_succ, List.map_append]
    simp

/-- The last-timestamp value the reducer stores is exactly the timestamp of
the most recently written record (0 for an empty ring). -/
lemma reducer_totalTime_eq (s : TraceState) :
    (if 0 < snapshotCount s then
        (s.xTraceBuffer
          ((snapshotStart s + snapshotCount s - 1) % PTL_TRACE_BUFFER_SIZE)).xTimestamp
      else 0)
      = lastWrittenTimestamp s := by
  rw [lastWrittenTimestamp, readableRange, getLast?_map_range]
  by_cases hc : snapshotCount s = 0
  · simp [hc]
  · have h1 : 0 < snapshotCount s := Nat.pos_of_ne_zero hc
    have harg : snapshotStart s + snapshotCount s - 1
        = snapshotStart s + (snapshotCount s - 1) := by omega
    rw [if_pos h1, if_neg hc, harg]
    rfl

/-- Claim C8: for every ring state whose accumulated idle total does not
exceed the total time (as holds for any tracker-produced state, both being
elapsed-tick measures of the same clock), the reducer returns release,
completion and deadline-miss counts equal to the number of RELEASE,
COMPLETE and DEADLINE_MISS records in the readable range, an overrun count
equal to the number of OVERRUN_SKIP, OVERRUN_KILL and OVERRUN_CATCHUP
records combined, `ulTotalTimeMs` equal to the timestamp of the most
recently written record (0 for an empty ring), `ulIdleTimeMs` equal to the
accumulated idle total, and a utilisation of
`(total_time - idle_time) / total_time` when the total time is positive
and 0 otherwise. -/
theorem PTL_GetTraceStatistics_spec (s : TraceState)
    (h : s.xIdleTimeTotal ≤ lastWrittenTimestamp s) :
    (PTL_GetTraceStatistics s).ulTotalReleases
        = (readableRange s).countP (fun r => decide (r.eEvent = EventType.release))
  ∧ (PTL_GetTraceStatistics s).ulTotalCompletions
        = (readableRange s).countP (fun r => decide (r.eEvent = EventType.complete))
  ∧ (PTL_GetTraceStatistics s).ulDeadlineMisses
        = (readableRange s).countP (fun r => decide (r.eEvent = EventType.deadlineMiss))
  ∧ (PTL_GetTraceStatistics s).ulOverrunCount
        = (readableRange s).countP (fun r => decide (r.eEvent = EventType.overrunSkip
            ∨ r.eEvent = EventType.overrunKill
            ∨ r.eEvent = EventType.overrunCatchup))
  ∧ (PTL_GetTraceStatistics s).ulTotalTimeMs = lastWrittenTimestamp s
  ∧ (PTL_GetTraceStatistics s).ulIdleTimeMs = s.xIdleTimeTotal
  ∧ (PTL_GetTraceStatistics s).fCPUUtilization
        = (if 0 < lastWrittenTimestamp s then
            ((lastWrittenTimestamp s : ℚ) - (s.xIdleTimeTotal : ℚ))
              / (lastWrittenTimestamp s : ℚ)
          else 0) := by
  obtain ⟨l1, l2, l3, l4, l5, l6, l7⟩ :=
    statsLoop_counts (readableRange s)
      ⟨0, 0, 0, 0, s.xIdleTimeTotal,
        (if 0 < snapshotCount s then
          (s.xTraceBuffer
            ((snapshotStart s + snapshotCount s - 1) % PTL_TRACE_BUFFER_SIZE)).xTimestamp
        else 0), 0⟩
  refine ⟨?_, ?_, ?_, ?_, ?_, ?_, ?_⟩ <;>
    (simp only [PTL_GetTraceStatistics, apply_ite TraceStats.ulTotalReleases,
      apply_ite TraceStats.ulTotalCompletions, apply_ite TraceStats.ulDeadlineMisses,
      apply_ite TraceStats.ulOverrunCount, apply_ite TraceStats.ulTotalTimeMs,
      apply_ite TraceStats.ulIdleTimeMs, apply_ite TraceStats.fCPUUtilization])
  · rw [ite_self, l1]
    simp
  · rw [ite_self, l2]
    simp
  · rw [ite_self, l3]
    simp
  · rw [ite_self, l4]
    simp
  · rw [ite_self]
    exact l6.trans (reducer_totalTime_eq s)
  · rw [ite_self]
    exact l5
  · rw [l6.trans (reducer_totalTime_eq s), l5]
    dsimp only
    by_cases hp : 0 < lastWrittenTimestamp s
    · rw [if_pos hp, if_pos hp, Nat.cast_sub h]
    · rw [if_neg hp, if_neg hp]

/-- A small concrete ring state: two records written, not wrapped, with an
accumulated idle total of 4 ticks. -/
def sampleTraceState : TraceState :=
  { xTraceBuffer := fun j =>
      if j = 0 then ⟨"A", EventType.release, 3⟩
      else if j = 1 then ⟨"A", EventType.complete, 9⟩
      else zeroRecord,
    ulWriteIndex := 2, xBufferWrapped := false,
    xIdleTimeTotal := 4, xLastIdleEntry := 0 }

/-- Witness for C8 at a concrete two-record ring with idle total 4 and
last timestamp 9. -/
theorem PTL_GetTraceStatistics_spec_witness :
    sampleTraceState.xIdleTimeTotal ≤ lastWrittenTimestamp sampleTraceState
  ∧ (PTL_GetTraceStatistics sampleTraceState).ulTotalTimeMs
      = lastWrittenTimestamp sampleTraceState :=
  ⟨by decide, (PTL_GetTraceStatistics_spec sampleTraceState (by decide)).2.2.2.2.1⟩

end PTL
